import Mathlib

set_option autoImplicit false

namespace FoodiePie

/-!
Shallow embedding of the real-time order-event subsystem of the foodiepie
repository: the SSE connection registry and broadcast actions
(src/actions/broadcastActions.js), the order actions
(src/actions/orderActions.js), the SSE route handler embedded at the end of
src/app/admin/orders/page.js, and the client-side WebSocket context
(src/contexts/SessionContext.js).

JavaScript values are modelled as follows: strings are String, a value that
may be null or undefined is Option String (the two JS missing values are
merged into none), JSON payloads are the Json inductive below, the
globalThis map of SSE connections is an association list in insertion
order (JS Map preserves insertion order and allows deletion of the current
entry during forEach), and Date.now() is passed in as an explicit Nat
parameter.
-/

/-- Json models the JSON values exchanged on the SSE channel. Json.null also
stands for the JS undefined value that property access on a missing key
yields. -/
inductive Json where
  | null : Json
  | str : String → Json
  | num : Nat → Json
  | obj : List (String × Json) → Json

/-- Models JS property access obj.key: the value stored under the first
matching key, or undefined (Json.null) when absent or when the value is not
an object. -/
def lookupField : List (String × Json) → String → Json
  | [], _ => Json.null
  | f :: rest, key => if f.1 == key then f.2 else lookupField rest key

/-- Models JS property access on a Json value. -/
def jsGet (j : Json) (key : String) : Json :=
  match j with
  | Json.obj fields => lookupField fields key
  | _ => Json.null

/-- One SSE connection as stored in globalThis (the connectionData object
built in the route handler at src/app/admin/orders/page.js lines 934-940):
restaurantId, type and customerPhone are the query parameters, sinkOk models
whether controller.enqueue succeeds (false once the peer is gone, in which
case enqueue throws), and received records the frames successfully enqueued
on this connection, in order. -/
structure Conn where
  restaurantId : String
  type : Option String
  customerPhone : Option String
  sinkOk : Bool
  received : List Json

/-- The global SSE connections map, in insertion order. -/
abbrev Registry := List (String × Conn)

/-- Models JS Map.prototype.set: replaces the value in place when the key is
present, otherwise appends a new entry. -/
def mapSet : Registry → String → Conn → Registry
  | [], k, v => [(k, v)]
  | e :: rest, k, v => if e.1 = k then (k, v) :: rest else e :: mapSet rest k v

/-- Models JS Map.prototype.has restricted to this registry. -/
def mapHasKey (m : Registry) (k : String) : Bool :=
  m.any (fun e => e.1 == k)

/-- Models a successful controller.enqueue of one frame on a connection. -/
def pushTo (c : Conn) (msg : Json) : Conn :=
  { c with received := c.received ++ [msg] }

/-- The message each broadcast action serializes once and enqueues to every
matching connection (broadcastActions.js line 26):
JSON.stringify with fields event, data, timestamp where timestamp is
Date.now() at the moment the broadcaster builds the message. -/
def mkMessage (event : String) (data : Json) (now : Nat) : Json :=
  Json.obj [("event", Json.str event), ("data", data), ("timestamp", Json.num now)]

/-- The connections.forEach loop shared verbatim by the three broadcast
actions (broadcastActions.js lines 29-38, 63-76, 100-109): for each entry
whose connection satisfies the matching test, try to enqueue the message;
on success count it, on a throwing enqueue delete that entry from the map.
Deleting the current entry during Map.forEach does not disturb the
iteration, so a single pass over the entry list is a faithful model. -/
def fanout (m : Conn → Bool) (msg : Json) : Registry → Registry × Nat
  | [] => ([], 0)
  | x :: rest =>
    let r := fanout m msg rest
    if m x.2 then
      if x.2.sinkOk then ((x.1, pushTo x.2 msg) :: r.1, r.2 + 1)
      else (r.1, r.2)
    else (x :: r.1, r.2)

/-- The matching test of broadcastToRestaurantAction (line 30):
conn.restaurantId === restaurantId, where the argument may be undefined. -/
def matchesRestaurant (rid : Option String) (c : Conn) : Bool :=
  some c.restaurantId == rid

/-- The matching test of broadcastToCustomerAction (lines 64-68). -/
def matchesCustomer (rid phone : Option String) (c : Conn) : Bool :=
  some c.restaurantId == rid && c.type == some "customer" && c.customerPhone == phone

/-- The matching test of broadcastToAdminAction (line 101). -/
def matchesAdmin (rid : Option String) (c : Conn) : Bool :=
  some c.restaurantId == rid && c.type == some "admin"

/-- The object each broadcast action returns to its caller. On the
uninitialized-registry path the JS object has no broadcastCount field,
modelled by none. -/
structure BroadcastResult where
  success : Bool
  error : Option String := none
  broadcastCount : Option Nat := none

/-- Models broadcastToRestaurantAction (broadcastActions.js lines 20-45).
The first component is the returned object, the second the global
connections map afterwards (none when it was never initialized). -/
def broadcastToRestaurantAction (conns : Option Registry) (restaurantId : Option String)
    (event : String) (data : Json) (now : Nat) : BroadcastResult × Option Registry :=
  match conns with
  | none => ({ success := false, error := some "No connections available" }, none)
  | some reg =>
    let r := fanout (matchesRestaurant restaurantId) (mkMessage event data now) reg
    ({ success := true, broadcastCount := some r.2 }, some r.1)

/-- Models broadcastToCustomerAction (broadcastActions.js lines 54-83). -/
def broadcastToCustomerAction (conns : Option Registry) (restaurantId customerPhone : Option String)
    (event : String) (data : Json) (now : Nat) : BroadcastResult × Option Registry :=
  match conns with
  | none => ({ success := false, error := some "No connections available" }, none)
  | some reg =>
    let r := fanout (matchesCustomer restaurantId customerPhone) (mkMessage event data now) reg
    ({ success := true, broadcastCount := some r.2 }, some r.1)

/-- Models broadcastToAdminAction (broadcastActions.js lines 91-116). -/
def broadcastToAdminAction (conns : Option Registry) (restaurantId : Option String)
    (event : String) (data : Json) (now : Nat) : BroadcastResult × Option Registry :=
  match conns with
  | none => ({ success := false, error := some "No connections available" }, none)
  | some reg =>
    let r := fanout (matchesAdmin restaurantId) (mkMessage event data now) reg
    ({ success := true, broadcastCount := some r.2 }, some r.1)

/-- The registry component of a broadcast action result, defaulting to the
empty registry when the map was never initialized. -/
def postRegistry (r : BroadcastResult × Option Registry) : Registry :=
  r.2.getD []

/-- Models the JS falsiness test on a string-or-missing value: undefined,
null and the empty string are falsy. -/
def strFalsy : Option String → Bool
  | none => true
  | some s => s == ""

/-- The slice of an order document that the claims touch. The remaining
fields of the Mongo schema (items, amounts, timestamps) do not influence
the status logic or the broadcast addressing. -/
structure Order where
  orderId : String
  restoId : String
  customerPhone : String
  tableNumber : String
  status : String
deriving DecidableEq

/-- Models serializePlain applied to an order document, restricted to the
modelled fields. -/
def orderToJson (o : Order) : Json :=
  Json.obj [("orderId", Json.str o.orderId), ("restoId", Json.str o.restoId),
    ("customerPhone", Json.str o.customerPhone), ("tableNumber", Json.str o.tableNumber),
    ("status", Json.str o.status)]

/-- The validStatuses list of updateOrderStatusAction
(orderActions.js line 215). -/
def validStatuses : List String :=
  ["Placed", "Accepted", "Preparing", "Served", "Cancelled"]

/-- Models Order.findOneAndUpdate with filter on orderId, update of the
status field and the new:true option: update the first document whose
orderId matches and return the updated document, or none when no document
matches. The second component is the collection afterwards. -/
def findOneAndUpdateStatus : List Order → String → String → Option (Order × List Order)
  | [], _, _ => none
  | o :: rest, oid, st =>
    if o.orderId = oid then
      some ({ o with status := st }, { o with status := st } :: rest)
    else
      match findOneAndUpdateStatus rest oid st with
      | none => none
      | some (u, rest2) => some (u, o :: rest2)

/-- A call to one of the three broadcast actions, as issued by the order
actions, recording the callee and its arguments. -/
inductive PublishCall where
  | toCustomer (restaurantId customerPhone : Option String) (event : String) (data : Json)
  | toAdmin (restaurantId : Option String) (event : String) (data : Json)
  | toRestaurant (restaurantId : Option String) (event : String) (data : Json)

/-- The object placeOrderAction and updateOrderStatusAction return to their
callers. -/
structure OrderActionResult where
  success : Bool
  error : Option String := none
  order : Option Json := none

/-- The data payload both status-change broadcasts carry
(orderActions.js lines 243-247 and 254-258). -/
def statusPayload (o : Order) (newStatus : String) : Json :=
  Json.obj [("orderId", Json.str o.orderId), ("status", Json.str newStatus),
    ("order", orderToJson o)]

/-- Models updateOrderStatusAction (orderActions.js lines 211-272): reject a
status name outside validStatuses, otherwise findOneAndUpdate on orderId;
when no order matches, fail; otherwise succeed and issue the customer and
admin broadcasts built from the updated document. The components are the
returned object, the order collection afterwards, and the broadcast calls
issued, in order. -/
def updateOrderStatusAction (orders : List Order) (orderId newStatus : String) :
    OrderActionResult × List Order × List PublishCall :=
  if !validStatuses.contains newStatus then
    ({ success := false, error := some "Invalid status" }, orders, [])
  else
    match findOneAndUpdateStatus orders orderId newStatus with
    | none => ({ success := false, error := some "Order not found" }, orders, [])
    | some (updatedOrder, orders2) =>
      ({ success := true, order := some (orderToJson updatedOrder) }, orders2,
        [PublishCall.toCustomer (some updatedOrder.restoId) (some updatedOrder.customerPhone)
          "order:status_changed" (statusPayload updatedOrder newStatus),
         PublishCall.toAdmin (some updatedOrder.restoId)
          "order:updated" (statusPayload updatedOrder newStatus)])

/-- Dispatches one recorded broadcast call to the broadcast action it
names. -/
def applyPublish (conns : Option Registry) (now : Nat) :
    PublishCall → BroadcastResult × Option Registry
  | PublishCall.toCustomer rid phone ev d => broadcastToCustomerAction conns rid phone ev d now
  | PublishCall.toAdmin rid ev d => broadcastToAdminAction conns rid ev d now
  | PublishCall.toRestaurant rid ev d => broadcastToRestaurantAction conns rid ev d now

/-- Applies a list of recorded broadcast calls to the connections map in
order, keeping only the map (the order actions discard the objects the
broadcast actions return). -/
def applyPublishes (conns : Option Registry) (now : Nat) : List PublishCall → Option Registry
  | [] => conns
  | c :: cs => applyPublishes (applyPublish conns now c).2 now cs

/-- Models updateOrderStatusAction together with the effect of its awaited
broadcast calls on the connections map: the returned object and updated
collection come from the pure part, and the broadcasts are then applied to
the map. The action ignores the values the broadcast actions return. -/
def updateOrderStatusFull (orders : List Order) (conns : Option Registry)
    (orderId newStatus : String) (now : Nat) :
    OrderActionResult × List Order × Option Registry :=
  let r := updateOrderStatusAction orders orderId newStatus
  (r.1, r.2.1, applyPublishes conns now r.2.2)

/-- One cart item of the order payload. Only presence matters to the
claims; name and quantity stand in for the item fields. -/
structure OrderItem where
  name : String
  quantity : Nat
deriving DecidableEq

/-- The orderData argument of placeOrderAction, restricted to the fields
the action validates or that the claims mention. The status field is part
of the input shape but the action never reads it. -/
structure OrderData where
  restoId : Option String
  customerPhone : Option String
  tableNumber : Option String
  items : List OrderItem
  status : Option String

/-- Models placeOrderAction (orderActions.js lines 43-134): validate that
restoId, customerPhone and tableNumber are truthy and items is non-empty,
create the order with status hard-coded to Placed, and issue the single
admin broadcast with event order:placed. The generated unique orderId
(generateOrderId plus the regeneration loop) is abstracted as the orderId
parameter; the claims do not depend on how it is produced. -/
def placeOrderAction (orders : List Order) (orderData : OrderData) (orderId : String) :
    OrderActionResult × List Order × List PublishCall :=
  if strFalsy orderData.restoId || strFalsy orderData.customerPhone ||
      strFalsy orderData.tableNumber || orderData.items.length == 0 then
    ({ success := false, error := some "Missing required fields" }, orders, [])
  else
    let newOrder : Order :=
      { orderId := orderId, restoId := orderData.restoId.getD "",
        customerPhone := orderData.customerPhone.getD "",
        tableNumber := orderData.tableNumber.getD "", status := "Placed" }
    ({ success := true, order := some (orderToJson newOrder) }, orders ++ [newOrder],
      [PublishCall.toAdmin orderData.restoId "order:placed"
        (Json.obj [("order", orderToJson newOrder)])])

/-- The frame the SSE route enqueues right after registering a connection
(src/app/admin/orders/page.js lines 944-946): an object with only the
fields event and connectionId. -/
def connectedFrame (connectionId : String) : Json :=
  Json.obj [("event", Json.str "connected"), ("connectionId", Json.str connectionId)]

/-- The keepalive frame the SSE route enqueues every 30 seconds
(src/app/admin/orders/page.js lines 951-953): an object with only the
event field. -/
def pingFrame : Json :=
  Json.obj [("event", Json.str "ping")]

/-- Models JS template-literal interpolation of a string-or-null value: a
null type parameter prints as the text null. -/
def jsTemplateOpt : Option String → String
  | none => "null"
  | some s => s

/-- Models the JS expression customerPhone or-else the string admin: null,
undefined and the empty string all fall back to admin. -/
def phoneOrAdmin : Option String → String
  | none => "admin"
  | some s => if s == "" then "admin" else s

/-- The connection id the SSE route generates
(src/app/admin/orders/page.js line 929). -/
def mkConnectionId (type : Option String) (restaurantId : String)
    (customerPhone : Option String) (now : Nat) : String :=
  jsTemplateOpt type ++ "_" ++ restaurantId ++ "_" ++ phoneOrAdmin customerPhone
    ++ "_" ++ toString now

/-- The connectionData object the SSE route stores for a new connection
(src/app/admin/orders/page.js lines 934-940), with the connected frame
already enqueued on its fresh stream. -/
def mkConnData (rid : String) (t p : Option String) (cid : String) : Conn :=
  { restaurantId := rid, type := t, customerPhone := p, sinkOk := true, received := [connectedFrame cid] }

/-- The observable outcome of the SSE GET route: HTTP status, the generated
connection id when a stream was opened, and the connections map
afterwards. -/
structure SseGetResult where
  status : Nat
  connectionId : Option String
  registry : Registry

/-- Models the SSE GET route (src/app/admin/orders/page.js lines 919-974):
reject a missing restaurantId with a 400 before touching the registry,
otherwise generate the connection id, store the connection data under it in
the global map, and enqueue the connected frame on the new stream. -/
def sseGET (reg : Registry) (restaurantId type customerPhone : Option String)
    (now : Nat) : SseGetResult :=
  if strFalsy restaurantId then
    { status := 400, connectionId := none, registry := reg }
  else
    let rid := restaurantId.getD ""
    let connectionId := mkConnectionId type rid customerPhone now
    let connectionData : Conn :=
      { restaurantId := rid, type := type, customerPhone := customerPhone,
        sinkOk := true, received := [connectedFrame connectionId] }
    { status := 200, connectionId := some connectionId,
      registry := mapSet reg connectionId connectionData }

/-- The client-side subscriber table of the WebSocketProvider
(SessionContext.js line 201): a map from event name to the set of callback
handles, in insertion order. Callbacks are modelled by opaque Nat
handles. -/
abbrev Subscribers := List (String × List Nat)

/-- Models subscribersRef.current.get(name) with a missing entry read as the
empty set. -/
def subsGet : Subscribers → String → List Nat
  | [], _ => []
  | s :: rest, name => if s.1 == name then s.2 else subsGet rest name

/-- Models subscribe (SessionContext.js lines 211-224): create the set for
the event name when absent, then add the callback to it. -/
def subsAdd : Subscribers → String → Nat → Subscribers
  | [], name, cb => [(name, [cb])]
  | s :: rest, name, cb =>
    if s.1 == name then (s.1, if s.2.contains cb then s.2 else s.2 ++ [cb]) :: rest
    else s :: subsAdd rest name cb

/-- Models notifySubscribers (SessionContext.js lines 231-242): invoke every
callback registered for the event name with the data. The result records
the invocations performed, in order. -/
def notifySubscribers (subs : Subscribers) (eventName : String) (d : Json) :
    List (Nat × Json) :=
  (subsGet subs eventName).map (fun cb => (cb, d))

/-- Models the eventSource.onmessage handler (SessionContext.js lines
289-307) applied to one parsed frame: destructure event, data and
timestamp, notify the subscribers registered for the event name with the
data, then notify the wildcard subscribers with the re-assembled envelope.
The result records every subscriber invocation the handler performs. -/
def handleMessage (subs : Subscribers) (frame : Json) : List (Nat × Json) :=
  let eventData := jsGet frame "data"
  let named :=
    match jsGet frame "event" with
    | Json.str name => notifySubscribers subs name eventData
    | _ => []
  named ++ notifySubscribers subs "*"
    (Json.obj [("event", jsGet frame "event"), ("data", eventData),
      ("timestamp", jsGet frame "timestamp")])

/-- The connection parameters the client stores for reconnection
(SessionContext.js lines 251-260). -/
structure ConnParams where
  restaurantId : Option String
  type : Option String
  customerPhone : Option String
deriving DecidableEq

/-- The mutable state of the WebSocketProvider relevant to the reconnect
discipline: whether an EventSource is open, the isConnected flag, whether
reconnectTimeoutRef currently holds a timeout handle, the number of
pending setTimeout reconnect callbacks at the platform level, the
subscriber table, and the stored connection parameters. Tracking the
platform-level count separately from the single ref slot is what lets the
model express stacked timers: scheduling always increments the count, and
clearTimeout through the ref cancels only the one timer the ref holds. -/
structure ClientState where
  sourceOpen : Bool
  isConnected : Bool
  refSet : Bool
  pendingTimers : Nat
  subscribers : Subscribers
  connectionParams : Option ConnParams

/-- The events that drive the WebSocketProvider connection lifecycle. -/
inductive ClientEvent where
  | connectReq (p : ConnParams)
  | sourceOpened
  | sourceError
  | timerFired
  | subscribeReq (eventName : String) (cb : Nat)
  | disconnectReq

/-- One step of the WebSocketProvider lifecycle (SessionContext.js lines
251-342). connectReq models connect: reject missing parameters, else store
them, close any existing EventSource and open a new one; it touches neither
the timer ref nor the subscriber table. sourceOpened models onopen: set
isConnected and clear a pending reconnect timer through the ref.
sourceError models onerror: clear isConnected, close the source, and
schedule one reconnect timer only when the ref is empty and parameters are
stored. timerFired models the reconnect callback: null the ref and call
connect with the stored parameters. subscribeReq models subscribe.
disconnectReq models disconnect. -/
def clientStep (s : ClientState) : ClientEvent → ClientState
  | ClientEvent.connectReq p =>
    if strFalsy p.restaurantId || strFalsy p.type then s
    else { s with connectionParams := some p, sourceOpen := true }
  | ClientEvent.sourceOpened =>
    { s with
      isConnected := true
      pendingTimers := if s.refSet then s.pendingTimers - 1 else s.pendingTimers
      refSet := false }
  | ClientEvent.sourceError =>
    if !s.refSet && s.connectionParams.isSome then
      { s with
        isConnected := false
        sourceOpen := false
        pendingTimers := s.pendingTimers + 1
        refSet := true }
    else
      { s with isConnected := false, sourceOpen := false }
  | ClientEvent.timerFired =>
    if s.pendingTimers = 0 then s
    else
      let s1 := { s with pendingTimers := s.pendingTimers - 1, refSet := false }
      match s.connectionParams with
      | some p =>
        if strFalsy p.restaurantId || strFalsy p.type then s1
        else { s1 with sourceOpen := true }
      | none => s1
  | ClientEvent.subscribeReq name cb =>
    { s with subscribers := subsAdd s.subscribers name cb }
  | ClientEvent.disconnectReq =>
    { s with
      sourceOpen := false
      isConnected := false
      connectionParams := none
      pendingTimers := if s.refSet then s.pendingTimers - 1 else s.pendingTimers
      refSet := false }

/-- The reconnect-timer invariant: at most one reconnect timer is pending,
and the ref holds a handle exactly when one is pending. -/
def TimerInv (s : ClientState) : Prop :=
  s.pendingTimers ≤ 1 ∧ (s.refSet = true ↔ s.pendingTimers = 1)

/-- Modelled from the spec: the allowed-transitions table of the order
state machine, current status to requested status. -/
def allowedTransition (current requested : String) : Bool :=
  (current == "Placed" && (requested == "Accepted" || requested == "Cancelled")) ||
  (current == "Accepted" && (requested == "Preparing" || requested == "Cancelled")) ||
  (current == "Preparing" && (requested == "Served" || requested == "Cancelled"))

/-- Modelled from the spec: the wire envelope shape, a JSON object with
exactly the fields event, data and timestamp in that order. -/
def isEventEnvelope (j : Json) : Prop :=
  ∃ e d ts, j = Json.obj [("event", Json.str e), ("data", d), ("timestamp", Json.num ts)]

/-- The order document placeOrderAction creates from a payload and the
generated id (orderActions.js lines 82-108): all fields from the payload
and status hard-coded to Placed. -/
def mkPlacedOrder (od : OrderData) (oid : String) : Order :=
  { orderId := oid, restoId := od.restoId.getD "", customerPhone := od.customerPhone.getD "", tableNumber := od.tableNumber.getD "", status := "Placed" }

/-- A sample admin connection under restaurant r1 with a working sink. -/
def demoAdminConn : Conn :=
  { restaurantId := "r1", type := some "admin", customerPhone := none, sinkOk := true, received := [] }

/-- A sample customer connection under restaurant r1 whose sink throws. -/
def demoDeadConn : Conn :=
  { restaurantId := "r1", type := some "customer", customerPhone := some "9999999999", sinkOk := false, received := [] }

/-- A sample order in restaurant r1 with status Placed. -/
def demoOrderPlaced : Order :=
  { orderId := "0112345", restoId := "r1", customerPhone := "9999999999", tableNumber := "5", status := "Placed" }

/-- The sample order with status Accepted. -/
def demoOrderAccepted : Order :=
  { demoOrderPlaced with status := "Accepted" }

/-- The sample order with terminal status Served. -/
def demoOrderServed : Order :=
  { demoOrderPlaced with status := "Served" }

/-- A sample order payload that even carries a contradictory status field,
which the action ignores. -/
def demoOrderData : OrderData :=
  { restoId := some "r1", customerPhone := some "9999999999", tableNumber := some "5", items := [{ name := "Paneer", quantity := 2 }], status := some "Served" }

/-! Helper lemmas about the fan-out loop. -/

/-- Characterization of the fan-out loop: the surviving registry keeps
non-matching entries untouched, appends the message to matching entries
with a working sink, drops matching entries with a failing sink, and the
count is the number of matching entries with a working sink. -/
theorem fanout_spec (m : Conn → Bool) (msg : Json) (reg : Registry) :
    (fanout m msg reg).1 = reg.filterMap (fun x =>
      if m x.2 then (if x.2.sinkOk then some (x.1, pushTo x.2 msg) else none)
      else some x) ∧
    (fanout m msg reg).2 = reg.countP (fun x => m x.2 && x.2.sinkOk) := by
  induction reg with
  | nil => simp [fanout]
  | cons hd tl ih =>
    obtain ⟨ih1, ih2⟩ := ih
    cases h1 : m hd.2 <;> cases h2 : hd.2.sinkOk <;>
      simp [fanout, h1, h2, ih1, ih2, List.countP_cons]

/-- A matching connection with a working sink receives the message. -/
theorem fanout_delivers (m : Conn → Bool) (msg : Json) (reg : Registry)
    (cid : String) (c : Conn) (hmem : (cid, c) ∈ reg) (hm : m c = true)
    (hok : c.sinkOk = true) : (cid, pushTo c msg) ∈ (fanout m msg reg).1 := by
  rw [(fanout_spec m msg reg).1]
  exact List.mem_filterMap.mpr ⟨(cid, c), hmem, by simp [hm, hok]⟩

/-- A non-matching connection survives untouched. -/
theorem fanout_skips (m : Conn → Bool) (msg : Json) (reg : Registry)
    (cid : String) (c : Conn) (hmem : (cid, c) ∈ reg) (hm : m c = false) :
    (cid, c) ∈ (fanout m msg reg).1 := by
  rw [(fanout_spec m msg reg).1]
  exact List.mem_filterMap.mpr ⟨(cid, c), hmem, by simp [hm]⟩

/-- Two entries of a registry with no duplicate keys that share a key are
the same entry. -/
theorem nodupKeys_eq (l : Registry) (h : (l.map Prod.fst).Nodup) (k : String)
    (v w : Conn) (h1 : (k, v) ∈ l) (h2 : (k, w) ∈ l) : v = w := by
  induction l with
  | nil => cases h1
  | cons hd tl ih =>
    rw [List.map_cons, List.nodup_cons] at h
    rcases List.mem_cons.mp h1 with e1 | m1 <;> rcases List.mem_cons.mp h2 with e2 | m2
    · rw [← e1] at e2; exact (Prod.mk.injEq _ _ _ _ ▸ e2).2.symm
    · exact absurd (List.mem_map.mpr ⟨(k, w), m2, by rw [← e1]⟩) h.1
    · exact absurd (List.mem_map.mpr ⟨(k, v), m1, by rw [← e2]⟩) h.1
    · exact ih h.2 m1 m2

/-- The fan-out loop introduces no new keys. -/
theorem fanout_keys_subset (m : Conn → Bool) (msg : Json) (l : Registry) :
    (fanout m msg l).1.map Prod.fst ⊆ l.map Prod.fst := by
  rw [(fanout_spec m msg l).1]
  intro a ha
  obtain ⟨b, hb, rfl⟩ := List.mem_map.mp ha
  obtain ⟨x, hx, hfx⟩ := List.mem_filterMap.mp hb
  refine List.mem_map.mpr ⟨x, hx, ?_⟩
  by_cases h1 : m x.2 = true
  · by_cases h2 : x.2.sinkOk = true
    · rw [if_pos h1, if_pos h2] at hfx
      have h3 : (x.1, pushTo x.2 msg) = b := Option.some.inj hfx
      subst h3
      rfl
    · rw [if_pos h1, if_neg h2] at hfx
      exact Option.noConfusion hfx
  · rw [if_neg h1] at hfx
    have h3 : x = b := Option.some.inj hfx
    exact congrArg Prod.fst h3

/-- A matching connection whose sink fails is pruned: its key is absent
from the surviving registry, provided the registry had no duplicate
keys. -/
theorem fanout_prunes (m : Conn → Bool) (msg : Json) (reg : Registry)
    (hkeys : (reg.map Prod.fst).Nodup) (cid : String) (c : Conn)
    (hmem : (cid, c) ∈ reg) (hm : m c = true) (hfail : c.sinkOk = false) :
    cid ∉ (fanout m msg reg).1.map Prod.fst := by
  induction reg with
  | nil => cases hmem
  | cons hd tl ih =>
    rw [List.map_cons, List.nodup_cons] at hkeys
    rcases List.mem_cons.mp hmem with e | mtl
    · rw [← e] at hkeys
      intro hmm
      rw [show (fanout m msg (hd :: tl)).1 = (fanout m msg tl).1 from by
        rw [← e]; simp [fanout, hm, hfail]] at hmm
      exact hkeys.1 (fanout_keys_subset m msg tl hmm)
    · have hne : hd.1 ≠ cid := by
        intro hk
        exact hkeys.1 (List.mem_map.mpr ⟨(cid, c), mtl, hk.symm⟩)
      have ihm := ih hkeys.2 mtl
      intro hmm
      by_cases h1 : m hd.2 = true
      · by_cases h2 : hd.2.sinkOk = true
        · rw [show (fanout m msg (hd :: tl)).1 = (hd.1, pushTo hd.2 msg) :: (fanout m msg tl).1 from by
            simp [fanout, h1, h2]] at hmm
          rcases List.mem_cons.mp hmm with e2 | m2
          · exact hne e2.symm
          · exact ihm m2
        · rw [show (fanout m msg (hd :: tl)).1 = (fanout m msg tl).1 from by
            simp [fanout, h1, h2]] at hmm
          exact ihm hmm
      · rw [show (fanout m msg (hd :: tl)).1 = hd :: (fanout m msg tl).1 from by
          simp [fanout, h1]] at hmm
        rcases List.mem_cons.mp hmm with e2 | m2
        · exact hne e2.symm
        · exact ihm m2

/-- Claim C2: broadcastToRestaurantAction pushes the event exactly to the
registered connections whose restaurantId equals the selector restaurant,
regardless of role, and broadcastToCustomerAction pushes exactly to the
connections with that restaurant, role customer and the selected phone; a
customer connection with another phone under the same restaurant, and any
connection under another restaurant, is left untouched. -/
theorem broadcast_addressing (reg : Registry) (R P e : String) (d : Json) (now : Nat)
    (cid : String) (c : Conn) (hmem : (cid, c) ∈ reg) :
    (c.restaurantId = R → c.sinkOk = true →
      (cid, pushTo c (mkMessage e d now)) ∈
        postRegistry (broadcastToRestaurantAction (some reg) (some R) e d now)) ∧
    (c.restaurantId ≠ R →
      (cid, c) ∈ postRegistry (broadcastToRestaurantAction (some reg) (some R) e d now)) ∧
    (c.restaurantId = R → c.type = some "customer" → c.customerPhone = some P →
      c.sinkOk = true →
      (cid, pushTo c (mkMessage e d now)) ∈
        postRegistry (broadcastToCustomerAction (some reg) (some R) (some P) e d now)) ∧
    (¬(c.restaurantId = R ∧ c.type = some "customer" ∧ c.customerPhone = some P) →
      (cid, c) ∈ postRegistry (broadcastToCustomerAction (some reg) (some R) (some P) e d now)) := by
  refine ⟨?_, ?_, ?_, ?_⟩
  · intro h1 h2
    exact fanout_delivers _ _ reg cid c hmem (by simp [matchesRestaurant, h1]) h2
  · intro h1
    exact fanout_skips _ _ reg cid c hmem (by simp [matchesRestaurant, h1])
  · intro h1 h2 h3 h4
    exact fanout_delivers _ _ reg cid c hmem (by simp [matchesCustomer, h1, h2, h3]) h4
  · intro h1
    refine fanout_skips _ _ reg cid c hmem ?_
    simp only [matchesCustomer]
    simp only [not_and_or] at h1
    rcases h1 with h | h | h <;> simp [h]

/-- Claim C3: during any of the three broadcast actions, a matching
connection whose enqueue throws is removed from the registry, every other
matching connection with a working sink still receives the message, and
the returned broadcastCount is the number of successful pushes. -/
theorem broadcast_failure_isolation (reg : Registry) (hkeys : (reg.map Prod.fst).Nodup)
    (R P : Option String) (e : String) (d : Json) (now : Nat)
    (cid : String) (c : Conn) (hmem : (cid, c) ∈ reg) (hfail : c.sinkOk = false) :
    (matchesRestaurant R c = true →
      cid ∉ (postRegistry (broadcastToRestaurantAction (some reg) R e d now)).map Prod.fst) ∧
    (matchesCustomer R P c = true →
      cid ∉ (postRegistry (broadcastToCustomerAction (some reg) R P e d now)).map Prod.fst) ∧
    (matchesAdmin R c = true →
      cid ∉ (postRegistry (broadcastToAdminAction (some reg) R e d now)).map Prod.fst) ∧
    (∀ k2 c2, (k2, c2) ∈ reg → c2.sinkOk = true →
      (matchesRestaurant R c2 = true →
        (k2, pushTo c2 (mkMessage e d now)) ∈
          postRegistry (broadcastToRestaurantAction (some reg) R e d now)) ∧
      (matchesCustomer R P c2 = true →
        (k2, pushTo c2 (mkMessage e d now)) ∈
          postRegistry (broadcastToCustomerAction (some reg) R P e d now)) ∧
      (matchesAdmin R c2 = true →
        (k2, pushTo c2 (mkMessage e d now)) ∈
          postRegistry (broadcastToAdminAction (some reg) R e d now))) ∧
    ((broadcastToRestaurantAction (some reg) R e d now).1.broadcastCount =
      some (reg.countP (fun x => matchesRestaurant R x.2 && x.2.sinkOk))) ∧
    ((broadcastToCustomerAction (some reg) R P e d now).1.broadcastCount =
      some (reg.countP (fun x => matchesCustomer R P x.2 && x.2.sinkOk))) ∧
    ((broadcastToAdminAction (some reg) R e d now).1.broadcastCount =
      some (reg.countP (fun x => matchesAdmin R x.2 && x.2.sinkOk))) := by
  refine ⟨?_, ?_, ?_, ?_, ?_, ?_, ?_⟩
  · intro hm
    exact fanout_prunes _ _ reg hkeys cid c hmem hm hfail
  · intro hm
    exact fanout_prunes _ _ reg hkeys cid c hmem hm hfail
  · intro hm
    exact fanout_prunes _ _ reg hkeys cid c hmem hm hfail
  · intro k2 c2 hmem2 hok2
    exact ⟨fun hm => fanout_delivers _ _ reg k2 c2 hmem2 hm hok2,
      fun hm => fanout_delivers _ _ reg k2 c2 hmem2 hm hok2,
      fun hm => fanout_delivers _ _ reg k2 c2 hmem2 hm hok2⟩
  · exact congrArg some (fanout_spec _ _ reg).2
  · exact congrArg some (fanout_spec _ _ reg).2
  · exact congrArg some (fanout_spec _ _ reg).2

/-- Claim C5 (amended): each broadcast action reports an error exactly when
the global connections map was never initialized; the selector is never
validated, a missing restaurantId included, and zero matching connections
or an empty registry yield a silent success with count zero. -/
theorem broadcast_error_iff_registry_uninitialized (conns : Option Registry)
    (reg : Registry) (rid phone : Option String) (e : String) (d : Json) (now : Nat) :
    ((broadcastToRestaurantAction conns rid e d now).1.success = false ↔ conns = none) ∧
    ((broadcastToCustomerAction conns rid phone e d now).1.success = false ↔ conns = none) ∧
    ((broadcastToAdminAction conns rid e d now).1.success = false ↔ conns = none) ∧
    ((broadcastToRestaurantAction (some reg) rid e d now).1.error = none) ∧
    ((broadcastToCustomerAction (some reg) rid phone e d now).1.error = none) ∧
    ((broadcastToAdminAction (some reg) rid e d now).1.error = none) ∧
    ((broadcastToRestaurantAction (some []) rid e d now).1.broadcastCount = some 0) ∧
    ((broadcastToCustomerAction (some []) rid phone e d now).1.broadcastCount = some 0) ∧
    ((broadcastToAdminAction (some []) rid e d now).1.broadcastCount = some 0) := by
  cases conns <;>
    simp [broadcastToRestaurantAction, broadcastToCustomerAction,
      broadcastToAdminAction, fanout]

/-- Claim C5 counterexample: with an initialized registry, a selector with
a missing restaurantId is not rejected (the call succeeds), and with an
uninitialized map a well-formed selector is rejected, so the error is not
equivalent to a malformed selector in either direction. -/
theorem broadcast_malformed_selector_not_rejected :
    (broadcastToRestaurantAction
      (some [("conn1",
        { restaurantId := "r1"
          type := some "admin"
          customerPhone := none
          sinkOk := true
          received := [] })])
      none "order:updated" Json.null 0).1.success = true ∧
    (broadcastToRestaurantAction none (some "r1") "order:updated" Json.null 0).1.success
      = false :=
  ⟨rfl, rfl⟩

/-- Witness for broadcast_addressing: a live admin connection under r1
receives a restaurant-wide broadcast for r1. -/
theorem broadcast_addressing_witness :
    ("a1", demoAdminConn) ∈ [("a1", demoAdminConn)] ∧
    ("a1", pushTo demoAdminConn (mkMessage "order:updated" Json.null 7)) ∈
      postRegistry (broadcastToRestaurantAction (some [("a1", demoAdminConn)])
        (some "r1") "order:updated" Json.null 7) :=
  ⟨List.mem_singleton.mpr rfl,
    (broadcast_addressing [("a1", demoAdminConn)] "r1" "9999999999" "order:updated"
      Json.null 7 "a1" demoAdminConn (List.mem_singleton.mpr rfl)).1 rfl rfl⟩

/-- Witness for broadcast_failure_isolation: with a dead customer
connection and a live admin connection both under r1, the dead one is
pruned by a restaurant-wide broadcast while the live one still receives
it. -/
theorem broadcast_failure_isolation_witness :
    ((([("d1", demoDeadConn), ("a1", demoAdminConn)] : Registry).map Prod.fst).Nodup ∧
      demoDeadConn.sinkOk = false) ∧
    "d1" ∉ (postRegistry (broadcastToRestaurantAction
      (some [("d1", demoDeadConn), ("a1", demoAdminConn)]) (some "r1")
      "order:updated" Json.null 7)).map Prod.fst ∧
    ("a1", pushTo demoAdminConn (mkMessage "order:updated" Json.null 7)) ∈
      postRegistry (broadcastToRestaurantAction
        (some [("d1", demoDeadConn), ("a1", demoAdminConn)]) (some "r1")
        "order:updated" Json.null 7) := by
  have hkeys : (([("d1", demoDeadConn), ("a1", demoAdminConn)] : Registry).map Prod.fst).Nodup := by
    simp
  have hres := broadcast_failure_isolation [("d1", demoDeadConn), ("a1", demoAdminConn)]
    hkeys (some "r1") (some "9999999999") "order:updated" Json.null 7 "d1" demoDeadConn
    (by simp) rfl
  exact ⟨⟨hkeys, rfl⟩, hres.1 rfl,
    (hres.2.2.2.1 "a1" demoAdminConn (by simp) rfl).1 rfl⟩

/-! Helper lemmas about findOneAndUpdateStatus. -/

/-- When no document matches the orderId filter, findOneAndUpdate returns
nothing. -/
theorem findUpd_none (orders : List Order) (oid st : String)
    (h : ∀ o ∈ orders, o.orderId ≠ oid) :
    findOneAndUpdateStatus orders oid st = none := by
  induction orders with
  | nil => rfl
  | cons o rest ih =>
    simp only [findOneAndUpdateStatus]
    rw [if_neg (h o (List.mem_cons_self o rest))]
    rw [ih (fun x hx => h x (List.mem_cons_of_mem o hx))]

/-- When some document matches the orderId filter, findOneAndUpdate returns
an updated document. -/
theorem findUpd_some (orders : List Order) (oid st : String) (o : Order)
    (hmem : o ∈ orders) (hid : o.orderId = oid) :
    ∃ p, findOneAndUpdateStatus orders oid st = some p := by
  induction orders with
  | nil => cases hmem
  | cons a rest ih =>
    by_cases ha : a.orderId = oid
    · exact ⟨_, by simp only [findOneAndUpdateStatus]; rw [if_pos ha]⟩
    · rcases List.mem_cons.mp hmem with e | hrest
      · exact absurd (e ▸ hid) ha
      · obtain ⟨p, hp⟩ := ih hrest
        refine ⟨(p.1, a :: p.2), ?_⟩
        simp only [findOneAndUpdateStatus]
        rw [if_neg ha, hp]

/-- The document findOneAndUpdate returns carries the matched id and the
requested status, and is a member of the resulting collection. -/
theorem findUpd_status (orders : List Order) (oid st : String) (u : Order)
    (l : List Order) (h : findOneAndUpdateStatus orders oid st = some (u, l)) :
    u.orderId = oid ∧ u.status = st ∧ u ∈ l := by
  induction orders generalizing u l with
  | nil => cases h
  | cons o rest ih =>
    by_cases ho : o.orderId = oid
    · simp only [findOneAndUpdateStatus] at h
      rw [if_pos ho] at h
      obtain ⟨h1, h2⟩ := Prod.mk.injEq _ _ _ _ ▸ Option.some.inj h
      subst h1
      subst h2
      exact ⟨ho, rfl, List.mem_cons_self _ _⟩
    · simp only [findOneAndUpdateStatus] at h
      rw [if_neg ho] at h
      cases hr : findOneAndUpdateStatus rest oid st with
      | none => rw [hr] at h; cases h
      | some p =>
        rw [hr] at h
        obtain ⟨h1, h2⟩ := Prod.mk.injEq _ _ _ _ ▸ Option.some.inj h
        subst h1
        obtain ⟨hu1, hu2, hu3⟩ := ih p.1 p.2 (by rw [hr])
        subst h2
        exact ⟨hu1, hu2, List.mem_cons_of_mem o hu3⟩

/-- Claim C1 (amended): updateOrderStatusAction validates only that the
requested status name is in validStatuses and that an order with the given
id exists; it enforces no transition table. A status name outside the list
fails with Invalid status, a missing order fails with Order not found, and
both failures leave the collection unchanged and publish nothing; any
status in the list on any existing order succeeds and persists the
requested status, regardless of the current status, same-status and
out-of-terminal requests included. -/
theorem updateOrderStatus_validates_name_and_existence_only
    (orders : List Order) (oid st : String) :
    (validStatuses.contains st = false →
      updateOrderStatusAction orders oid st =
        ({ success := false, error := some "Invalid status" }, orders, [])) ∧
    (validStatuses.contains st = true → (∀ o ∈ orders, o.orderId ≠ oid) →
      updateOrderStatusAction orders oid st =
        ({ success := false, error := some "Order not found" }, orders, [])) ∧
    (validStatuses.contains st = true → ∀ o ∈ orders, o.orderId = oid →
      ∃ u orders2,
        updateOrderStatusAction orders oid st =
          ({ success := true, order := some (orderToJson u) }, orders2,
            [PublishCall.toCustomer (some u.restoId) (some u.customerPhone)
              "order:status_changed" (statusPayload u st),
             PublishCall.toAdmin (some u.restoId) "order:updated" (statusPayload u st)]) ∧
        u.status = st ∧ u ∈ orders2) := by
  refine ⟨?_, ?_, ?_⟩
  · intro hc
    have h : st ∉ validStatuses := by simpa using hc
    simp [updateOrderStatusAction, h]
  · intro hc hno
    have h : st ∈ validStatuses := by simpa using hc
    simp [updateOrderStatusAction, h, findUpd_none orders oid st hno]
  · intro hc o hmem hid
    have h : st ∈ validStatuses := by simpa using hc
    obtain ⟨⟨u, l⟩, hp⟩ := findUpd_some orders oid st o hmem hid
    obtain ⟨h1, h2, h3⟩ := findUpd_status orders oid st u l hp
    refine ⟨u, l, ?_, h2, h3⟩
    simp [updateOrderStatusAction, h, hp]

/-- Witness for the amended C1 theorem: a Served order accepts a request
back to Placed, demonstrating that no transition table is enforced. -/
theorem updateOrderStatus_validation_witness :
    (validStatuses.contains "Placed" = true ∧ demoOrderServed.orderId = "0112345") ∧
    ∃ u orders2,
      updateOrderStatusAction [demoOrderServed] "0112345" "Placed" =
        ({ success := true, order := some (orderToJson u) }, orders2,
          [PublishCall.toCustomer (some u.restoId) (some u.customerPhone)
            "order:status_changed" (statusPayload u "Placed"),
           PublishCall.toAdmin (some u.restoId) "order:updated" (statusPayload u "Placed")]) ∧
      u.status = "Placed" ∧ u ∈ orders2 :=
  ⟨⟨rfl, rfl⟩,
    (updateOrderStatus_validates_name_and_existence_only
      [demoOrderServed] "0112345" "Placed").2.2 rfl
      demoOrderServed (List.mem_singleton.mpr rfl) rfl⟩

/-- Claim C1 counterexample: the pair of current status Served and request
Placed is outside the allowed-transitions table, yet the call succeeds and
persists Placed, refuting the claim that every pair outside the table
fails and leaves the status unchanged. -/
theorem updateOrderStatus_ignores_transition_table :
    allowedTransition "Served" "Placed" = false ∧
    (updateOrderStatusAction [demoOrderServed] "0112345" "Placed").1.success = true ∧
    (updateOrderStatusAction [demoOrderServed] "0112345" "Placed").2.1 = [demoOrderPlaced] :=
  ⟨rfl, rfl, rfl⟩

/-- Claim C4: a successful updateOrderStatusAction persists the requested
status into the matched order and then issues exactly two broadcast calls
built from the committed document, the customer-addressed
order:status_changed and the admin-addressed order:updated, both carrying
the updated order and new status; the returned result does not depend on
the connections map, so it is independent of whether any live connection
received either push. -/
theorem updateOrderStatus_commit_then_publish (orders : List Order) (oid st : String)
    (u : Order) (orders2 : List Order) (hst : validStatuses.contains st = true)
    (hf : findOneAndUpdateStatus orders oid st = some (u, orders2)) :
    updateOrderStatusAction orders oid st =
      ({ success := true, order := some (orderToJson u) }, orders2,
        [PublishCall.toCustomer (some u.restoId) (some u.customerPhone)
          "order:status_changed" (statusPayload u st),
         PublishCall.toAdmin (some u.restoId) "order:updated" (statusPayload u st)]) ∧
    u.status = st ∧ u ∈ orders2 ∧
    (∀ conns now, (updateOrderStatusFull orders conns oid st now).1 =
        (updateOrderStatusAction orders oid st).1 ∧
      (updateOrderStatusFull orders conns oid st now).2.1 = orders2) := by
  obtain ⟨h1, h2, h3⟩ := findUpd_status orders oid st u orders2 hf
  have heq : updateOrderStatusAction orders oid st =
      ({ success := true, order := some (orderToJson u) }, orders2,
        [PublishCall.toCustomer (some u.restoId) (some u.customerPhone)
          "order:status_changed" (statusPayload u st),
         PublishCall.toAdmin (some u.restoId) "order:updated" (statusPayload u st)]) := by
    have h : st ∈ validStatuses := by simpa using hst
    simp [updateOrderStatusAction, h, hf]
  refine ⟨heq, h2, h3, ?_⟩
  intro conns now
  constructor
  · rfl
  · show (updateOrderStatusAction orders oid st).2.1 = orders2
    rw [heq]

/-- Witness for updateOrderStatus_commit_then_publish on a one-order
collection moving from Placed to Accepted. -/
theorem updateOrderStatus_commit_witness :
    (validStatuses.contains "Accepted" = true ∧
      findOneAndUpdateStatus [demoOrderPlaced] "0112345" "Accepted" =
        some (demoOrderAccepted, [demoOrderAccepted])) ∧
    updateOrderStatusAction [demoOrderPlaced] "0112345" "Accepted" =
      ({ success := true, order := some (orderToJson demoOrderAccepted) },
        [demoOrderAccepted],
        [PublishCall.toCustomer (some demoOrderAccepted.restoId)
          (some demoOrderAccepted.customerPhone)
          "order:status_changed" (statusPayload demoOrderAccepted "Accepted"),
         PublishCall.toAdmin (some demoOrderAccepted.restoId) "order:updated"
          (statusPayload demoOrderAccepted "Accepted")]) :=
  ⟨⟨rfl, rfl⟩,
    (updateOrderStatus_commit_then_publish [demoOrderPlaced] "0112345" "Accepted"
      demoOrderAccepted [demoOrderAccepted] rfl rfl).1⟩

/-- Claim C10: placeOrderAction with all required fields present creates
the order with status hard-coded to Placed, whatever status the input
carries, and issues exactly one broadcast call, the admin-addressed
order:placed with the new order; no customer-addressed publish happens at
creation. -/
theorem placeOrder_status_placed_single_admin_publish
    (orders : List Order) (od : OrderData) (oid : String)
    (hr : strFalsy od.restoId = false) (hp : strFalsy od.customerPhone = false)
    (ht : strFalsy od.tableNumber = false) (hi : od.items.length ≠ 0) :
    ∃ newOrder : Order,
      placeOrderAction orders od oid =
        ({ success := true, order := some (orderToJson newOrder) },
          orders ++ [newOrder],
          [PublishCall.toAdmin od.restoId "order:placed"
            (Json.obj [("order", orderToJson newOrder)])]) ∧
      newOrder.status = "Placed" ∧ newOrder.orderId = oid := by
  refine ⟨mkPlacedOrder od oid, ?_, rfl, rfl⟩
  simp [placeOrderAction, mkPlacedOrder, hr, hp, ht, hi]

/-- Witness for placeOrder_status_placed_single_admin_publish on an input
that carries a contradictory status field. -/
theorem placeOrder_witness :
    (strFalsy demoOrderData.restoId = false ∧
      strFalsy demoOrderData.customerPhone = false ∧
      strFalsy demoOrderData.tableNumber = false ∧
      demoOrderData.items.length ≠ 0) ∧
    ∃ newOrder : Order,
      placeOrderAction [] demoOrderData "0199999" =
        ({ success := true, order := some (orderToJson newOrder) }, [newOrder],
          [PublishCall.toAdmin demoOrderData.restoId "order:placed"
            (Json.obj [("order", orderToJson newOrder)])]) ∧
      newOrder.status = "Placed" ∧ newOrder.orderId = "0199999" :=
  ⟨⟨rfl, rfl, rfl, by simp [demoOrderData]⟩,
    placeOrder_status_placed_single_admin_publish [] demoOrderData "0199999"
      rfl rfl rfl (by simp [demoOrderData])⟩

/-- Claim C6 counterexample: the connected frame and the ping frame the
SSE route enqueues are not of the envelope shape with fields event, data
and timestamp; in particular the connected frame carries its connectionId
at top level rather than inside a data field. -/
theorem connected_and_ping_frames_lack_envelope :
    ¬ isEventEnvelope (connectedFrame "abc") ∧ ¬ isEventEnvelope pingFrame := by
  constructor <;> rintro ⟨e, d, ts, h⟩ <;>
    simp [connectedFrame, pingFrame, isEventEnvelope] at h

/-- Claim C6 (amended): frames built by the broadcast actions are
envelopes with exactly the fields event, data and timestamp, the timestamp
being set by the broadcaster at construction time; the connected frame
instead carries only event and a top-level connectionId, and the ping
frame only event, so neither has a data or a timestamp field. -/
theorem sse_frame_shapes (e : String) (d : Json) (now : Nat) (cid : String) :
    isEventEnvelope (mkMessage e d now) ∧
    jsGet (mkMessage e d now) "timestamp" = Json.num now ∧
    jsGet (mkMessage e d now) "event" = Json.str e ∧
    jsGet (mkMessage e d now) "data" = d ∧
    jsGet (connectedFrame cid) "event" = Json.str "connected" ∧
    jsGet (connectedFrame cid) "connectionId" = Json.str cid ∧
    jsGet (connectedFrame cid) "data" = Json.null ∧
    jsGet (connectedFrame cid) "timestamp" = Json.null ∧
    jsGet pingFrame "event" = Json.str "ping" ∧
    jsGet pingFrame "data" = Json.null ∧
    jsGet pingFrame "timestamp" = Json.null := by
  refine ⟨⟨e, d, now, rfl⟩, ?_, ?_, ?_, ?_, ?_, ?_, ?_, ?_, ?_, ?_⟩ <;> rfl

/-! Helper lemmas about mapSet. -/

/-- Setting a key stores the entry. -/
theorem mem_mapSet_self (m : Registry) (k : String) (v : Conn) :
    (k, v) ∈ mapSet m k v := by
  induction m with
  | nil => exact List.mem_singleton.mpr rfl
  | cons a rest ih =>
    simp only [mapSet]
    by_cases h : a.1 = k
    · rw [if_pos h]
      exact List.mem_cons_self _ _
    · rw [if_neg h]
      exact List.mem_cons_of_mem a ih

/-- Setting a fresh key appends the entry and keeps every existing entry
in place. -/
theorem mapSet_fresh (m : Registry) (k : String) (v : Conn)
    (h : mapHasKey m k = false) : mapSet m k v = m ++ [(k, v)] := by
  induction m with
  | nil => rfl
  | cons a rest ih =>
    simp only [mapHasKey, List.any_cons, Bool.or_eq_false_iff] at h
    simp only [mapSet]
    rw [if_neg (by simpa using h.1)]
    rw [ih (by simpa [mapHasKey] using h.2)]
    simp

/-- Claim C7 (amended): a GET with a restaurantId always succeeds, returns
the generated connection id and stores the connection under it with the
connected frame already enqueued; when the generated id is fresh relative
to the registry, every existing entry is preserved unchanged. The id is,
however, a pure function of type, restaurantId, customerPhone and the
current millisecond, so two attempts with identical parameters in the same
millisecond collide, and Map.set then replaces the earlier entry. -/
theorem sse_register_succeeds_and_preserves_fresh (reg : Registry) (rid : String)
    (t p : Option String) (now : Nat) (hrid : rid ≠ "") :
    (sseGET reg (some rid) t p now).status = 200 ∧
    ∃ cid, (sseGET reg (some rid) t p now).connectionId = some cid ∧
      (cid, mkConnData rid t p cid) ∈ (sseGET reg (some rid) t p now).registry ∧
      (mapHasKey reg cid = false → ∀ x ∈ reg, x ∈ (sseGET reg (some rid) t p now).registry) := by
  have hb : strFalsy (some rid) = false := by simp [strFalsy, hrid]
  refine ⟨by simp [sseGET, hb], mkConnectionId t rid p now, by simp [sseGET, hb], ?_, ?_⟩
  · show (mkConnectionId t rid p now, mkConnData rid t p (mkConnectionId t rid p now)) ∈
      (sseGET reg (some rid) t p now).registry
    simp only [sseGET, hb, Bool.false_eq_true, if_false, Option.getD_some]
    exact mem_mapSet_self reg _ _
  · intro hfresh x hx
    simp only [sseGET, hb, Bool.false_eq_true, if_false, Option.getD_some]
    rw [mapSet_fresh reg _ _ hfresh]
    exact List.mem_append_left _ hx

/-- Witness for the amended C7 theorem at a concrete registry holding one
prior connection under a different id. -/
theorem sse_register_witness :
    ("r1" ≠ "" ∧ mapHasKey [("a1", demoAdminConn)] (mkConnectionId (some "admin") "r1" none 17) = false) ∧
    (sseGET [("a1", demoAdminConn)] (some "r1") (some "admin") none 17).status = 200 ∧
    ("a1", demoAdminConn) ∈ (sseGET [("a1", demoAdminConn)] (some "r1") (some "admin") none 17).registry := by
  have h := sse_register_succeeds_and_preserves_fresh [("a1", demoAdminConn)] "r1"
    (some "admin") none 17 (by simp)
  obtain ⟨h200, cid, hcid, hmem, hpres⟩ := h
  have hcomp : (sseGET [("a1", demoAdminConn)] (some "r1") (some "admin") none 17).connectionId =
      some (mkConnectionId (some "admin") "r1" none 17) := rfl
  rw [hcomp] at hcid
  have hcid2 : cid = mkConnectionId (some "admin") "r1" none 17 :=
    (Option.some.inj hcid).symm
  subst hcid2
  refine ⟨⟨by simp, rfl⟩, h200, ?_⟩
  exact hpres rfl ("a1", demoAdminConn) (List.mem_singleton.mpr rfl)

/-- Claim C7 counterexample: two connection attempts with identical
type, restaurantId and customerPhone in the same millisecond generate the
same connection id, and the second registration replaces the first entry,
so after both attempts the registry holds a single connection. -/
theorem sse_connection_id_collision :
    (sseGET [] (some "r1") (some "admin") none 17).connectionId =
      (sseGET (sseGET [] (some "r1") (some "admin") none 17).registry
        (some "r1") (some "admin") none 17).connectionId ∧
    (sseGET [] (some "r1") (some "admin") none 17).registry.length = 1 ∧
    (sseGET (sseGET [] (some "r1") (some "admin") none 17).registry
      (some "r1") (some "admin") none 17).registry.length = 1 :=
  ⟨rfl, rfl, rfl⟩

/-- Claim C8 counterexample: with a subscriber registered under ping and a
wildcard subscriber, the client message handler invokes both of them on a
ping frame, so the keepalive is surfaced through the subscription
system. -/
theorem ping_reaches_subscribers :
    handleMessage [("ping", [0]), ("*", [1])] pingFrame =
      [(0, Json.null),
       (1, Json.obj [("event", Json.str "ping"), ("data", Json.null), ("timestamp", Json.null)])] ∧
    handleMessage [("ping", [0]), ("*", [1])] pingFrame ≠ [] := by
  refine ⟨rfl, ?_⟩
  intro h
  exact List.cons_ne_nil _ _ h

/-- Claim C8 (amended): the client message handler dispatches a ping frame
like any other event: it invokes exactly the subscribers registered under
ping, with the undefined payload, followed by the wildcard subscribers
with the re-assembled envelope; no callback runs only when no subscriber
is registered under ping or the wildcard. -/
theorem ping_dispatch (subs : Subscribers) :
    handleMessage subs pingFrame =
      (subsGet subs "ping").map (fun cb => (cb, Json.null)) ++
      (subsGet subs "*").map (fun cb =>
        (cb, Json.obj [("event", Json.str "ping"), ("data", Json.null), ("timestamp", Json.null)])) ∧
    (subsGet subs "ping" = [] → subsGet subs "*" = [] →
      handleMessage subs pingFrame = []) := by
  have h1 : handleMessage subs pingFrame =
      (subsGet subs "ping").map (fun cb => (cb, Json.null)) ++
      (subsGet subs "*").map (fun cb =>
        (cb, Json.obj [("event", Json.str "ping"), ("data", Json.null), ("timestamp", Json.null)])) := rfl
  refine ⟨h1, ?_⟩
  intro hp hw
  rw [h1, hp, hw]
  rfl

/-- Witness for ping_dispatch: with only an order:updated subscriber
registered, a ping frame triggers no callback. -/
theorem ping_dispatch_witness :
    (subsGet ([("order:updated", [5])] : Subscribers) "ping" = [] ∧
      subsGet ([("order:updated", [5])] : Subscribers) "*" = []) ∧
    handleMessage [("order:updated", [5])] pingFrame = [] :=
  ⟨⟨rfl, rfl⟩, (ping_dispatch [("order:updated", [5])]).2 rfl rfl⟩

/-- Claim C9: every lifecycle event preserves the timer invariant, so at
most one reconnect timer is ever pending; a transport error schedules
exactly one reconnect timer when none is pending and parameters are
stored, and schedules nothing further while one is pending; a successful
open cancels any pending timer; and the connect, open, error and
timer-fired events never touch the subscriber table, so subscriptions
survive reconnection independently of the transport instance. -/
theorem client_reconnect_discipline (s : ClientState) (e : ClientEvent)
    (hinv : TimerInv s) :
    TimerInv (clientStep s e) ∧
    (s.refSet = false → s.connectionParams.isSome = true →
      (clientStep s ClientEvent.sourceError).pendingTimers = s.pendingTimers + 1 ∧
      (clientStep s ClientEvent.sourceError).refSet = true) ∧
    (s.refSet = true →
      (clientStep s ClientEvent.sourceError).pendingTimers = s.pendingTimers ∧
      (clientStep s ClientEvent.sourceError).refSet = true) ∧
    ((clientStep s ClientEvent.sourceOpened).pendingTimers = 0 ∧
      (clientStep s ClientEvent.sourceOpened).refSet = false) ∧
    ((∀ p, (clientStep s (ClientEvent.connectReq p)).subscribers = s.subscribers) ∧
      (clientStep s ClientEvent.sourceOpened).subscribers = s.subscribers ∧
      (clientStep s ClientEvent.sourceError).subscribers = s.subscribers ∧
      (clientStep s ClientEvent.timerFired).subscribers = s.subscribers ∧
      (clientStep s ClientEvent.disconnectReq).subscribers = s.subscribers) := by
  obtain ⟨so, ic, rs, pt, sb, cp⟩ := s
  obtain ⟨h1, h2⟩ := hinv
  simp only [ClientState.refSet, ClientState.pendingTimers, ClientState.subscribers,
    ClientState.connectionParams] at h1 h2 ⊢
  refine ⟨?_, ?_, ?_, ?_, ?_, ?_, ?_, ?_, ?_⟩
  · cases e <;> cases rs <;> cases cp <;>
      (try simp_all [clientStep, TimerInv]) <;>
      (try split_ifs) <;> (try simp_all) <;> omega
  · intro hrs hcp
    subst hrs
    cases cp with
    | none => cases hcp
    | some p => simp [clientStep]
  · intro hrs
    subst hrs
    simp [clientStep]
  · cases rs <;> simp_all [clientStep] <;> omega
  · intro p
    simp only [clientStep]
    split_ifs <;> rfl
  · rfl
  · simp only [clientStep]
    split_ifs <;> rfl
  · cases cp <;> simp only [clientStep] <;> split_ifs <;> rfl
  · rfl

/-- Witness for client_reconnect_discipline: from an idle connected-less
state with stored parameters and no pending timer, a transport error
schedules exactly one reconnect timer. -/
theorem client_reconnect_witness :
    TimerInv ⟨false, false, false, 0, [], some ⟨some "r1", some "admin", none⟩⟩ ∧
    TimerInv (clientStep ⟨false, false, false, 0, [], some ⟨some "r1", some "admin", none⟩⟩
      ClientEvent.sourceError) ∧
    (clientStep ⟨false, false, false, 0, [], some ⟨some "r1", some "admin", none⟩⟩
      ClientEvent.sourceError).pendingTimers = 0 + 1 := by
  have hinv : TimerInv ⟨false, false, false, 0, [], some ⟨some "r1", some "admin", none⟩⟩ := by
    constructor <;> simp
  have h := client_reconnect_discipline
    ⟨false, false, false, 0, [], some ⟨some "r1", some "admin", none⟩⟩
    ClientEvent.sourceError hinv
  exact ⟨hinv, h.1, (h.2.1 rfl rfl).1⟩

end FoodiePie
